import Mathlib

/-!
Shallow embedding of the entry/session layer of the openxr binding
(src/openxr/src/entry.rs and src/openxr/src/session.rs), together with
theorems settling the spec claims about it.

Conventions of the embedding:
* native status codes are `Int`; the crate-level `cvt` helper and the
  generated sys-crate constants are not under src/ and are modelled from
  the spec's status-code convention;
* `Vec` capacities are `Nat`; `Vec::with_capacity n` yields capacity
  exactly `n`, and `Vec::reserve additional` on a vector of length 0
  follows its documented contract: it does nothing when the current
  capacity is at least `additional`, and otherwise grows (amortized
  doubling) to at least `additional`;
* the runtime is modelled as a trace of responses, one per native call;
  a loop that would keep running past the end of the trace yields `none`.
-/

deriving instance DecidableEq for Except

namespace OpenXR

/-- Modelled from the spec: the crate-level status helper `cvt`, which is not
under src/. Per the native ABI convention, zero and positive status codes are
success variants and negative codes are failure variants carrying the reason;
`cvt` turns a failure into a typed error holding exactly the native code. -/
def cvt (x : Int) : Except Int Int :=
  if x < 0 then Except.error x else Except.ok x

/-- Modelled from the spec: the size-insufficient failure status
(`sys::Result::ERROR_SIZE_INSUFFICIENT`, declared in the generated sys crate,
which is not under src/). -/
def ERROR_SIZE_INSUFFICIENT : Int := -11

/-- Modelled from the spec: the success status reporting that reference-space
bounds are unavailable (`sys::Result::SPACE_BOUNDS_UNAVAILABLE`, declared in
the generated sys crate, which is not under src/). It is a success code. -/
def SPACE_BOUNDS_UNAVAILABLE : Int := 7

/-- `Vec::reserve additional` on a vector of length 0 whose current capacity
is `cap`: per its documented contract it does nothing if the capacity is
already sufficient (`cap ≥ len + additional = additional`), and otherwise
grows to at least `len + additional` (amortized doubling). -/
def reserveCap (cap additional : Nat) : Nat :=
  if additional ≤ cap then cap else max (2 * cap) additional

/-- One runtime response to the native `xrGetVisibilityMaskKHR` call: its
status code and the vertex/index counts it wrote back. -/
structure MaskResponse where
  status : Int
  vertexCountOutput : Nat
  indexCountOutput : Nat
  deriving DecidableEq

/-- The mesh produced by `Session::get_visibility_mask_khr`. The element
values are irrelevant to every claim, so only the lengths that `set_len`
establishes are modelled. -/
structure VisibilityMask where
  verticesLen : Nat
  indicesLen : Nat
  deriving DecidableEq

/-- The arguments of one fill invocation of the native visibility-mask call:
the capacities placed in `vertex_capacity_input` / `index_capacity_input` and
whether the buffer pointers passed were null. In the source the pointer
fields of `info` are initialized to null and never reassigned, so both
pointers are null on every call. -/
structure MaskFillCall where
  vertexCapacityInput : Nat
  indexCapacityInput : Nat
  verticesIsNull : Bool
  indicesIsNull : Bool
  deriving DecidableEq

/-- The `loop` of `Session::get_visibility_mask_khr`
(src/openxr/src/session.rs:315-344), one iteration per runtime response:
set the capacity inputs from the vectors' capacities, call, and on success
`set_len` to the reported counts and return; on `ERROR_SIZE_INSUFFICIENT`
call `Vec::reserve` with `count.saturating_sub(capacity)` (the vectors'
lengths are 0 here, so `reserveCap` applies) and retry; on any other error
return it. Returns the fill calls made and the outcome (`none` when the
response trace is exhausted with the loop still running). -/
def maskLoop : Nat → Nat → List MaskResponse →
    List MaskFillCall × Option (Except Int VisibilityMask)
  | _, _, [] => ([], none)
  | vcap, icap, r :: rest =>
    match cvt r.status with
    | Except.ok _ =>
        ([⟨vcap, icap, true, true⟩],
          some (Except.ok ⟨r.vertexCountOutput, r.indexCountOutput⟩))
    | Except.error e =>
        if e = ERROR_SIZE_INSUFFICIENT then
          let next := maskLoop (reserveCap vcap (r.vertexCountOutput - vcap))
            (reserveCap icap (r.indexCountOutput - icap)) rest
          (⟨vcap, icap, true, true⟩ :: next.1, next.2)
        else
          ([⟨vcap, icap, true, true⟩], some (Except.error e))

/-- `Session::get_visibility_mask_khr` (src/openxr/src/session.rs:287-346):
a probing call with zero capacities and null buffers, then vectors created
with `Vec::with_capacity` at the reported counts, then the fill loop.
A probe failure propagates before any fill call is made. -/
def get_visibility_mask_khr (probe : MaskResponse) (fills : List MaskResponse) :
    List MaskFillCall × Option (Except Int VisibilityMask) :=
  match cvt probe.status with
  | Except.error e => ([], some (Except.error e))
  | Except.ok _ => maskLoop probe.vertexCountOutput probe.indexCountOutput fills

/-- `Session::begin` (src/openxr/src/session.rs:58-65): builds the begin info
and returns `cvt` of the native `begin_session` status, here taken as the
argument. -/
def Session.begin (status : Int) : Except Int Int := cvt status

/-- `Session::end` (src/openxr/src/session.rs:80-82): returns `cvt` of the
native `end_session` status, here taken as the argument. -/
def Session.end_session (status : Int) : Except Int Int := cvt status

/-- `Session::reference_space_bounds_rect` (src/openxr/src/session.rs:85-99):
`cvt` the native status, propagating failures; on success return `none`
exactly when the success status is `SPACE_BOUNDS_UNAVAILABLE`, otherwise
`some` of the extent the runtime wrote. The extent payload is opaque to the
control flow, so it is a type parameter. -/
def reference_space_bounds_rect {α : Type} (status : Int) (extent : α) :
    Except Int (Option α) :=
  match cvt status with
  | Except.error e => Except.error e
  | Except.ok s =>
      if s = SPACE_BOUNDS_UNAVAILABLE then Except.ok none
      else Except.ok (some extent)

/-- The fields of the native `sys::FrameState` that `xrWaitFrame` writes,
with the `Bool32` flag kept as a raw machine word (nonzero means true). -/
structure RawFrameState where
  predictedDisplayTime : Int
  predictedDisplayPeriod : Int
  shouldRender : Nat
  deriving DecidableEq

/-- `FrameState` (the value returned by `FrameWaiter::wait`). -/
structure FrameState where
  predictedDisplayTime : Int
  predictedDisplayPeriod : Int
  shouldRender : Bool
  deriving DecidableEq

/-- `FrameWaiter::wait` (src/openxr/src/session.rs:455-470): `cvt` the native
`wait_frame` status, propagating failures; on success build a `FrameState`
from the three fields the runtime wrote, converting the `Bool32` flag to a
boolean (nonzero means true, the sys-crate conversion modelled from the
spec). -/
def FrameWaiter.wait (status : Int) (raw : RawFrameState) :
    Except Int FrameState :=
  match cvt status with
  | Except.error e => Except.error e
  | Except.ok _ =>
      Except.ok ⟨raw.predictedDisplayTime, raw.predictedDisplayPeriod,
        raw.shouldRender != 0⟩

/-- The symbol table of a successfully opened dynamic library: resolves a
symbol name to the address of the entry point, when present. -/
structure SymbolTable where
  symbol : String → Option Nat

/-- `LoadError` (src/openxr/src/entry.rs:176): the error produced when the
library cannot be opened or a required symbol is missing. The source wraps
the loader's message string; the embedding distinguishes the two sources of
failure instead. -/
inductive LoadError where
  | openFail : LoadError
  | missingSymbol : String → LoadError
  deriving DecidableEq

/-- `RawEntry` (src/openxr/src/entry.rs:166-171): the four resolved global
entry points, each held as the resolved address. -/
structure RawEntry where
  get_instance_proc_addr : Nat
  create_instance : Nat
  enumerate_instance_extension_properties : Nat
  enumerate_api_layer_properties : Nat
  deriving DecidableEq

/-- `Entry::load_from` (src/openxr/src/entry.rs:48-75): open the dynamic
library (`none` models an open failure), then resolve the four entry-point
symbols in source order, failing on the first missing one; only when all
four resolve is an entry table produced. -/
def load_from (lib : Option SymbolTable) : Except LoadError RawEntry :=
  match lib with
  | none => Except.error LoadError.openFail
  | some t =>
    match t.symbol ("xrGetInstanceProcAddr") with
    | none => Except.error (LoadError.missingSymbol ("xrGetInstanceProcAddr"))
    | some p1 =>
      match t.symbol ("xrCreateInstance") with
      | none => Except.error (LoadError.missingSymbol ("xrCreateInstance"))
      | some p2 =>
        match t.symbol ("xrEnumerateInstanceExtensionProperties") with
        | none =>
            Except.error
              (LoadError.missingSymbol ("xrEnumerateInstanceExtensionProperties"))
        | some p3 =>
          match t.symbol ("xrEnumerateApiLayerProperties") with
          | none =>
              Except.error
                (LoadError.missingSymbol ("xrEnumerateApiLayerProperties"))
          | some p4 => Except.ok ⟨p1, p2, p3, p4⟩

/-- `MAX_APPLICATION_NAME_SIZE`: the fixed capacity of the application-name
field, a named constant of the generated sys crate (not under src/),
modelled from the spec at the OpenXR value 128. Its exact value is
irrelevant to the claims. -/
def MAX_APPLICATION_NAME_SIZE : Nat := 128

/-- `MAX_ENGINE_NAME_SIZE`: the fixed capacity of the engine-name field,
a named constant of the generated sys crate (not under src/), modelled from
the spec at the OpenXR value 128. -/
def MAX_ENGINE_NAME_SIZE : Nat := 128

/-- Modelled from the spec: the `fixed_cstr!` marshalling macro used by
`Entry::create_instance` (src/openxr/src/entry.rs:110,112), whose definition
is not under src/. Per the spec, a name whose encoded length is at most the
fixed maximum capacity is encoded into a fixed-capacity null-terminated
buffer unchanged, and a longer name is rejected deterministically. Names are
byte lists. -/
def fixed_cstr (name : List Nat) (cap : Nat) : Option (List Nat) :=
  if name.length ≤ cap then
    some (name ++ List.replicate (cap + 1 - name.length) 0)
  else none

/-- Reading a name back out of a fixed-capacity null-terminated buffer:
the bytes up to the terminating null. -/
def cstrContents (buf : List Nat) : List Nat :=
  buf.takeWhile (fun b => b != 0)

/-- The error type of `Entry::create_instance` in the embedding: either the
local name-validation failure raised by `fixed_cstr!` before any native
call, or a native status code. -/
inductive CreateInstanceError where
  | nameTooLong : CreateInstanceError
  | status : Int → CreateInstanceError
  deriving DecidableEq

/-- The runtime's responses to the calls `Entry::create_instance` can make:
the status of the native `create_instance` call and the status of
`InstanceExtensions::load` (whose failure is whatever negative status its
internal calls produced). -/
structure CreateInstanceResponses where
  createStatus : Int
  extLoadStatus : Int
  deriving DecidableEq

/-- What a run of `Entry::create_instance` did: whether the native
`create_instance` call was invoked, whether the native `destroy_instance`
call was invoked, and the result. -/
structure CreateInstanceOutcome where
  nativeCreateCalled : Bool
  destroyInstanceCalled : Bool
  result : Except CreateInstanceError Unit
  deriving DecidableEq

/-- `Entry::create_instance` (src/openxr/src/entry.rs:99-128): marshal the
application and engine names with `fixed_cstr!` (any failure is raised while
building the info struct, before the native call), then invoke the native
`create_instance`; on its success run `InstanceExtensions::load`, whose
failure is propagated by `?` with no `destroy_instance` call anywhere in the
function — the field `destroyInstanceCalled` is therefore `false` on every
path, faithfully to the source. -/
def Entry.create_instance (applicationName engineName : List Nat)
    (resp : CreateInstanceResponses) : CreateInstanceOutcome :=
  match fixed_cstr applicationName MAX_APPLICATION_NAME_SIZE with
  | none => ⟨false, false, Except.error CreateInstanceError.nameTooLong⟩
  | some _ =>
    match fixed_cstr engineName MAX_ENGINE_NAME_SIZE with
    | none => ⟨false, false, Except.error CreateInstanceError.nameTooLong⟩
    | some _ =>
      match cvt resp.createStatus with
      | Except.error e =>
          ⟨true, false, Except.error (CreateInstanceError.status e)⟩
      | Except.ok _ =>
        match cvt resp.extLoadStatus with
        | Except.error e =>
            ⟨true, false, Except.error (CreateInstanceError.status e)⟩
        | Except.ok _ => ⟨true, false, Except.ok ()⟩

/-- An extensible native output element as far as the claims are concerned:
its structure-type discriminant and whether its `next` pointer is null. -/
structure TaggedElem where
  ty : Nat
  nextIsNull : Bool
  deriving DecidableEq

/-- Modelled from the spec: `sys::ExtensionProperties::TYPE`, the structure
type discriminant of an extension-properties element (generated sys crate,
not under src/; OpenXR value 2 — the exact value is irrelevant). -/
def TYPE_EXTENSION_PROPERTIES : Nat := 2

/-- Modelled from the spec: `sys::View::TYPE`, the structure type
discriminant of a view element (generated sys crate, not under src/;
OpenXR value 7 — the exact value is irrelevant). -/
def TYPE_VIEW : Nat := 7

/-- The element `Entry::enumerate_extensions` (src/openxr/src/entry.rs:133)
passes to the array helper: an `ExtensionProperties` with `ty` set to its
type discriminant, `next` null and the remaining fields uninitialized. -/
def extensionPropertiesUnset : TaggedElem := ⟨TYPE_EXTENSION_PROPERTIES, true⟩

/-- The element `Session::locate_views` (src/openxr/src/session.rs:188)
passes to the array helper: `sys::View::out(null)`, a view with `ty` set to
its type discriminant, `next` null and the remaining fields uninitialized
(`out` is generated sys-crate code, modelled from the spec). -/
def viewUnset : TaggedElem := ⟨TYPE_VIEW, true⟩

/-- One runtime response to a two-call array query: the status, the element
count written back, and the elements the runtime wrote into the buffer. -/
structure ArrResponse (α : Type) where
  status : Int
  countOutput : Nat
  written : List α
  deriving DecidableEq

/-- The arguments of one fill invocation made by the array helper: the
capacity passed and the full contents of the buffer at the moment of the
call. -/
structure ArrFillCall (α : Type) where
  capacityInput : Nat
  buffer : List α
  deriving DecidableEq

/-- Modelled from the spec: the fill loop of the generic array helper
`get_arr_init` (§4.1), whose definition is not under src/. The buffer holds
`cap` copies of the initializer element when the fill call is issued; on
success the first `countOutput` elements the runtime wrote are returned; on
`ERROR_SIZE_INSUFFICIENT` the buffer is enlarged to the reported count, each
element re-initialized, and the call retried; any other failure is
returned. -/
def arrFillLoop {α : Type} (init : α) : Nat → List (ArrResponse α) →
    List (ArrFillCall α) × Option (Except Int (List α))
  | _, [] => ([], none)
  | cap, r :: rest =>
    match cvt r.status with
    | Except.ok _ =>
        ([⟨cap, List.replicate cap init⟩],
          some (Except.ok (r.written.take r.countOutput)))
    | Except.error e =>
        if e = ERROR_SIZE_INSUFFICIENT then
          (⟨cap, List.replicate cap init⟩ ::
              (arrFillLoop init r.countOutput rest).1,
            (arrFillLoop init r.countOutput rest).2)
        else ([⟨cap, List.replicate cap init⟩], some (Except.error e))

/-- Modelled from the spec: the generic two-call array helper `get_arr_init`
(§4.1), not under src/: probe with capacity 0 and a null buffer to learn the
required count, then run the fill loop with a buffer of that many copies of
the initializer element. A probe failure propagates before any fill call. -/
def get_arr_init {α : Type} (init : α) (probe : ArrResponse α)
    (fills : List (ArrResponse α)) :
    List (ArrFillCall α) × Option (Except Int (List α)) :=
  match cvt probe.status with
  | Except.error e => ([], some (Except.error e))
  | Except.ok _ => arrFillLoop init probe.countOutput fills

/-- `Entry::enumerate_extensions` (src/openxr/src/entry.rs:130-149): queries
the extension properties through `get_arr_init` with the type-tagged unset
`ExtensionProperties` initializer. -/
def Entry.enumerate_extensions (probe : ArrResponse TaggedElem)
    (fills : List (ArrResponse TaggedElem)) :
    List (ArrFillCall TaggedElem) × Option (Except Int (List TaggedElem)) :=
  get_arr_init extensionPropertiesUnset probe fills

/-- `Session::locate_views` (src/openxr/src/session.rs:172-212): queries the
view array through `get_arr_init` with the type-tagged unset `View`
initializer. -/
def Session.locate_views (probe : ArrResponse TaggedElem)
    (fills : List (ArrResponse TaggedElem)) :
    List (ArrFillCall TaggedElem) × Option (Except Int (List TaggedElem)) :=
  get_arr_init viewUnset probe fills

/-- The ownership state of one Instance and the `SessionInner` shared by the
`Session`, `FrameWaiter` and `FrameStream` produced by `Session::from_raw`
(src/openxr/src/session.rs:20-36). `extInstanceRefs` counts the `Instance`
clones held outside the `SessionInner`; `innerRefs` counts the
`Arc<SessionInner>` owners; `innerAlive` records whether the `SessionInner`
(and hence its retained `instance` field, src/openxr/src/session.rs:378-381)
still exists. -/
structure OwnState where
  extInstanceRefs : Nat
  innerRefs : Nat
  innerAlive : Bool
  instanceDestroyed : Bool
  sessionDestroyed : Bool
  deriving DecidableEq

/-- The number of live references to the Instance: the external clones plus
the one retained by the `SessionInner` while it is alive. -/
def instanceTotalRefs (s : OwnState) : Nat :=
  s.extInstanceRefs + (if s.innerAlive then 1 else 0)

/-- A drop event: dropping one externally held `Instance` clone, or dropping
one `Arc<SessionInner>` owner (a `Session` clone, the `FrameWaiter` or the
`FrameStream`). -/
inductive DropEvent where
  | dropInstance : DropEvent
  | dropSessionHandle : DropEvent
  deriving DecidableEq

/-- Reference-counted drop semantics of the source's `Arc` ownership: the
native `destroy_instance` runs when the last Instance reference drops; the
last `Arc<SessionInner>` owner runs `SessionInner::drop`
(src/openxr/src/session.rs:383-389), which calls the native
`destroy_session` through its retained instance and then releases that
retained Instance reference. -/
def ownStep (s : OwnState) (e : DropEvent) : OwnState :=
  match e with
  | DropEvent.dropInstance =>
    if s.extInstanceRefs = 0 then s
    else
      let s1 := { s with extInstanceRefs := s.extInstanceRefs - 1 }
      if instanceTotalRefs s1 = 0 then { s1 with instanceDestroyed := true }
      else s1
  | DropEvent.dropSessionHandle =>
    if s.innerRefs = 0 then s
    else if s.innerRefs = 1 then
      let s1 :=
        { s with innerRefs := 0, innerAlive := false, sessionDestroyed := true }
      if instanceTotalRefs s1 = 0 then { s1 with instanceDestroyed := true }
      else s1
    else { s with innerRefs := s.innerRefs - 1 }

/-- Run a sequence of drop events. -/
def ownRun (s : OwnState) (es : List DropEvent) : OwnState :=
  es.foldl ownStep s

/-- The state right after `Session::from_raw` on an instance with `n`
external references: the returned `Session`, `FrameWaiter` and `FrameStream`
are three `Arc<SessionInner>` owners, the `SessionInner` holds its own
Instance clone, and nothing has been destroyed. -/
def fromRawState (n : Nat) : OwnState := ⟨n, 3, true, false, false⟩

/-- Claim C1 fails on the code: after the probe reports counts (10, 10) and
the fill call answers `ERROR_SIZE_INSUFFICIENT` with counts (15, 15), the
retry is supposed to use buffers of exactly size 15, but
`Vec::reserve(15 - 10)` on vectors of length 0 and capacity 10 is a
documented no-op, so every retry is issued with the old capacities (10, 10)
and the loop never returns, however long the runtime keeps answering
`ERROR_SIZE_INSUFFICIENT` — which it legitimately may, since the supplied
capacity stays below the reported count. -/
theorem get_visibility_mask_khr_retry_never_grows (k : Nat) :
    maskLoop 10 10 (List.replicate k ⟨-11, 15, 15⟩) =
      (List.replicate k ⟨10, 10, true, true⟩, none) := by
  induction k with
  | zero => rfl
  | succ n ih =>
    rw [List.replicate_succ, List.replicate_succ]
    simp only [maskLoop, cvt, ERROR_SIZE_INSUFFICIENT, reserveCap]
    norm_num
    rw [ih]
    exact ⟨rfl, rfl⟩

/-- Claim C1, concrete evaluation at the failing input: four consecutive
size-insufficient responses at counts (15, 15) produce four fill calls all
made with capacities (10, 10) — never a buffer of the reported size 15 —
and no return. -/
theorem get_visibility_mask_khr_retry_never_grows_concrete :
    maskLoop 10 10 (List.replicate 4 ⟨-11, 15, 15⟩) =
      (List.replicate 4 ⟨10, 10, true, true⟩, none) := rfl

/-- Claim C2 fails on the code: when the native `create_instance` call
succeeds (status 0) and extension loading then fails (status -2), the
function returns the error while `destroy_instance` was never called — the
owned native instance handle is leaked, not released. -/
theorem create_instance_ext_load_failure_leaks_handle :
    Entry.create_instance [] [] ⟨0, -2⟩ =
      ⟨true, false, Except.error (CreateInstanceError.status (-2))⟩ := rfl

/-- Claim C4: every native status below zero other than size-insufficient is
returned by `Session::begin`, `Session::end` and the visibility-mask fill
loop as a typed error carrying exactly that status code. -/
theorem session_ops_forward_native_status (s : Int) (hneg : s < 0)
    (hne : s ≠ ERROR_SIZE_INSUFFICIENT) :
    Session.begin s = Except.error s ∧
    Session.end_session s = Except.error s ∧
    ∀ (vcap icap : Nat) (r : MaskResponse) (rest : List MaskResponse),
      r.status = s →
      (maskLoop vcap icap (r :: rest)).2 = some (Except.error s) := by
  refine ⟨?_, ?_, ?_⟩
  · simp [Session.begin, cvt, hneg]
  · simp [Session.end_session, cvt, hneg]
  · intro vcap icap r rest hr
    simp [maskLoop, cvt, hr, hneg, hne]

/-- Claim C4, witness: status -2 (not size-insufficient) is forwarded
unmodified by begin, end, and the visibility-mask fill loop. -/
theorem session_ops_forward_native_status_witness :
    Session.begin (-2) = Except.error (-2) ∧
    Session.end_session (-2) = Except.error (-2) ∧
    (maskLoop 0 0 [⟨-2, 0, 0⟩]).2 = some (Except.error (-2)) := by
  have h := session_ops_forward_native_status (-2) (by decide) (by decide)
  exact ⟨h.1, h.2.1, h.2.2 0 0 ⟨-2, 0, 0⟩ [] rfl⟩

/-- Claim C7: when the probe succeeds reporting zero vertices and zero
indices and the fill call succeeds likewise, the query returns the empty
mask — not an error — and the single fill call it issued carried capacities
(0, 0) with its (null) buffer pointers, so no call paired a null buffer
with a nonzero capacity. -/
theorem get_visibility_mask_khr_zero_count_empty (probe r : MaskResponse)
    (rest : List MaskResponse) (hp : 0 ≤ probe.status)
    (hpv : probe.vertexCountOutput = 0) (hpi : probe.indexCountOutput = 0)
    (hr : 0 ≤ r.status) (hrv : r.vertexCountOutput = 0)
    (hri : r.indexCountOutput = 0) :
    get_visibility_mask_khr probe (r :: rest) =
      ([⟨0, 0, true, true⟩], some (Except.ok ⟨0, 0⟩)) := by
  simp [get_visibility_mask_khr, maskLoop, cvt, not_lt.mpr hp, not_lt.mpr hr,
    hpv, hpi, hrv, hri]

/-- Claim C7, witness: a zero-count query with successful probe and fill. -/
theorem get_visibility_mask_khr_zero_count_empty_witness :
    get_visibility_mask_khr ⟨0, 0, 0⟩ [⟨0, 0, 0⟩] =
      ([⟨0, 0, true, true⟩], some (Except.ok ⟨0, 0⟩)) :=
  get_visibility_mask_khr_zero_count_empty ⟨0, 0, 0⟩ ⟨0, 0, 0⟩ []
    (by decide) rfl rfl (by decide) rfl rfl

/-- Claim C9: on a successful native `wait_frame` call, `FrameWaiter::wait`
returns a `FrameState` whose fields are exactly the native result's
predicted display time, predicted display period, and should-render flag;
on a failure status it returns that status as the error. -/
theorem frame_waiter_wait_fields (status : Int) (raw : RawFrameState) :
    (0 ≤ status →
      FrameWaiter.wait status raw =
        Except.ok ⟨raw.predictedDisplayTime, raw.predictedDisplayPeriod,
          raw.shouldRender != 0⟩) ∧
    (status < 0 → FrameWaiter.wait status raw = Except.error status) := by
  constructor
  · intro h
    simp [FrameWaiter.wait, cvt, not_lt.mpr h]
  · intro h
    simp [FrameWaiter.wait, cvt, h]

/-- Claim C9, witness: a successful wait copies the three fields, and a
failed wait forwards the status. -/
theorem frame_waiter_wait_fields_witness :
    FrameWaiter.wait 0 ⟨5, 6, 1⟩ = Except.ok ⟨5, 6, true⟩ ∧
    FrameWaiter.wait (-3) ⟨5, 6, 1⟩ = Except.error (-3) :=
  ⟨(frame_waiter_wait_fields 0 ⟨5, 6, 1⟩).1 (by decide),
    (frame_waiter_wait_fields (-3) ⟨5, 6, 1⟩).2 (by decide)⟩

/-- Claim C10: when the native call succeeds,
`Session::reference_space_bounds_rect` returns `none` exactly when the
success status is `SPACE_BOUNDS_UNAVAILABLE` and `some` of the returned
extent for every other success status; every failure status is propagated
as the error. -/
theorem reference_space_bounds_rect_cases {α : Type} (status : Int)
    (extent : α) :
    (0 ≤ status →
      (reference_space_bounds_rect status extent = Except.ok none ↔
        status = SPACE_BOUNDS_UNAVAILABLE) ∧
      (status ≠ SPACE_BOUNDS_UNAVAILABLE →
        reference_space_bounds_rect status extent =
          Except.ok (some extent))) ∧
    (status < 0 →
      reference_space_bounds_rect status extent = Except.error status) := by
  constructor
  · intro h
    by_cases hs : status = SPACE_BOUNDS_UNAVAILABLE
    · refine ⟨?_, fun hne => absurd hs hne⟩
      simp [reference_space_bounds_rect, cvt, not_lt.mpr h, hs,
        SPACE_BOUNDS_UNAVAILABLE]
    · refine ⟨?_, fun _ => ?_⟩ <;>
        simp [reference_space_bounds_rect, cvt, not_lt.mpr h, hs]
  · intro h
    simp [reference_space_bounds_rect, cvt, h]

/-- Claim C10, witness: status 7 yields `none`, success status 0 yields
`some`, failure status -1 is propagated. -/
theorem reference_space_bounds_rect_cases_witness :
    reference_space_bounds_rect 7 (0 : Nat) = Except.ok none ∧
    reference_space_bounds_rect 0 (0 : Nat) = Except.ok (some 0) ∧
    reference_space_bounds_rect (-1) (0 : Nat) = Except.error (-1) :=
  ⟨((reference_space_bounds_rect_cases 7 0).1 (by decide)).1.mpr (by decide),
    ((reference_space_bounds_rect_cases 0 0).1 (by decide)).2 (by decide),
    (reference_space_bounds_rect_cases (-1) 0).2 (by decide)⟩

/-- Reading back a null-terminated buffer built from a null-free name
followed by padding zeros recovers the name. -/
theorem cstrContents_append_zeros (name : List Nat) (k : Nat) (hk : 0 < k)
    (h : ∀ b ∈ name, b ≠ 0) :
    cstrContents (name ++ List.replicate k 0) = name := by
  induction name with
  | nil =>
    cases k with
    | zero => exact absurd hk (lt_irrefl 0)
    | succ m => simp [cstrContents, List.replicate_succ]
  | cons a l ih =>
    have ha : a ≠ 0 := h a (List.mem_cons_self a l)
    simp only [List.cons_append, cstrContents, List.takeWhile_cons,
      bne_iff_ne]
    rw [if_pos ha]
    exact congrArg (List.cons a)
      (ih fun b hb => h b (List.mem_cons_of_mem a hb))

/-- Claim C3: a name whose encoded length is exactly the fixed maximum
capacity marshals successfully (for both the application-name and the
engine-name field) and reads back unchanged, while a name one byte beyond
the maximum makes `Entry::create_instance` fail deterministically with the
local validation error before the native create call is invoked
(`nativeCreateCalled = false`), whatever the runtime would have answered. -/
theorem create_instance_name_capacity_boundary (name overlong : List Nat)
    (hnz : ∀ b ∈ name, b ≠ 0)
    (hlen : name.length = MAX_APPLICATION_NAME_SIZE)
    (hlen2 : overlong.length = MAX_APPLICATION_NAME_SIZE + 1) :
    (∃ buf, fixed_cstr name MAX_APPLICATION_NAME_SIZE = some buf ∧
      cstrContents buf = name) ∧
    (∃ buf, fixed_cstr name MAX_ENGINE_NAME_SIZE = some buf ∧
      cstrContents buf = name) ∧
    (∀ resp : CreateInstanceResponses,
      Entry.create_instance overlong name resp =
        ⟨false, false, Except.error CreateInstanceError.nameTooLong⟩) ∧
    (∀ resp : CreateInstanceResponses,
      Entry.create_instance name overlong resp =
        ⟨false, false, Except.error CreateInstanceError.nameTooLong⟩) := by
  have happ : fixed_cstr name MAX_APPLICATION_NAME_SIZE =
      some (name ++ List.replicate 1 0) := by
    simp [fixed_cstr, hlen, MAX_APPLICATION_NAME_SIZE]
  have heng : fixed_cstr name MAX_ENGINE_NAME_SIZE =
      some (name ++ List.replicate 1 0) := by
    simp [fixed_cstr, hlen, MAX_APPLICATION_NAME_SIZE, MAX_ENGINE_NAME_SIZE]
  have happo : fixed_cstr overlong MAX_APPLICATION_NAME_SIZE = none := by
    simp [fixed_cstr, hlen2, MAX_APPLICATION_NAME_SIZE]
  have hengo : fixed_cstr overlong MAX_ENGINE_NAME_SIZE = none := by
    simp [fixed_cstr, hlen2, MAX_APPLICATION_NAME_SIZE, MAX_ENGINE_NAME_SIZE]
  refine ⟨⟨name ++ List.replicate 1 0, happ, ?_⟩,
    ⟨name ++ List.replicate 1 0, heng, ?_⟩, fun resp => ?_, fun resp => ?_⟩
  · exact cstrContents_append_zeros name 1 one_pos hnz
  · exact cstrContents_append_zeros name 1 one_pos hnz
  · simp [Entry.create_instance, happo]
  · simp [Entry.create_instance, happ, hengo]

/-- Claim C3, witness: a 128-byte name of ones marshals and reads back
unchanged; a 129-byte name makes create_instance fail with the validation
error and no native call. -/
theorem create_instance_name_capacity_boundary_witness :
    (∃ buf, fixed_cstr (List.replicate 128 1) MAX_APPLICATION_NAME_SIZE =
      some buf ∧ cstrContents buf = List.replicate 128 1) ∧
    Entry.create_instance (List.replicate 129 1) (List.replicate 128 1)
        ⟨0, 0⟩ =
      ⟨false, false, Except.error CreateInstanceError.nameTooLong⟩ := by
  have h := create_instance_name_capacity_boundary (List.replicate 128 1)
    (List.replicate 129 1)
    (by
      intro b hb
      rw [List.eq_of_mem_replicate hb]
      decide)
    (by simp [MAX_APPLICATION_NAME_SIZE])
    (by simp [MAX_APPLICATION_NAME_SIZE])
  exact ⟨h.1, h.2.2.1 ⟨0, 0⟩⟩

/-- Claim C5: `Entry::load_from` produces an entry table exactly when the
library opens and all four required entry-point symbols resolve; any open
failure or missing symbol yields a `LoadError` and no entry value. -/
theorem load_from_requires_all_symbols (lib : Option SymbolTable) :
    (load_from lib).isOk = true ↔
      ∃ t, lib = some t ∧
        (t.symbol ("xrGetInstanceProcAddr")).isSome = true ∧
        (t.symbol ("xrCreateInstance")).isSome = true ∧
        (t.symbol ("xrEnumerateInstanceExtensionProperties")).isSome = true ∧
        (t.symbol ("xrEnumerateApiLayerProperties")).isSome = true := by
  cases lib with
  | none => simp [load_from, Except.isOk, Except.toBool]
  | some t =>
    cases h1 : t.symbol ("xrGetInstanceProcAddr") with
    | none => simp [load_from, h1, Except.isOk, Except.toBool]
    | some p1 =>
      cases h2 : t.symbol ("xrCreateInstance") with
      | none => simp [load_from, h1, h2, Except.isOk, Except.toBool]
      | some p2 =>
        cases h3 : t.symbol ("xrEnumerateInstanceExtensionProperties") with
        | none => simp [load_from, h1, h2, h3, Except.isOk, Except.toBool]
        | some p3 =>
          cases h4 : t.symbol ("xrEnumerateApiLayerProperties") with
          | none => simp [load_from, h1, h2, h3, h4, Except.isOk, Except.toBool]
          | some p4 => simp [load_from, h1, h2, h3, h4, Except.isOk, Except.toBool]

/-- The ownership invariant: the native instance handle is destroyed only
after the `SessionInner` (which retains its own Instance reference) is
gone. -/
def ownInv (s : OwnState) : Prop :=
  s.instanceDestroyed = true → s.innerAlive = false

/-- One drop event preserves the ownership invariant. -/
theorem ownStep_preserves_inv (s : OwnState) (e : DropEvent)
    (h : ownInv s) : ownInv (ownStep s e) := by
  cases e with
  | dropInstance =>
    simp only [ownStep]
    split
    · exact h
    · split
      · intro hdm
        rename_i hne hz
        by_cases hA : s.innerAlive
        · simp [instanceTotalRefs, hA] at hz
        · show s.innerAlive = false
          simpa using hA
      · intro hd
        exact h hd
  | dropSessionHandle =>
    simp only [ownStep]
    split
    · exact h
    · split
      · split
        · intro _; rfl
        · intro _; rfl
      · intro hd
        exact h hd

/-- A sequence of drop events preserves the ownership invariant. -/
theorem ownRun_preserves_inv (es : List DropEvent) :
    ∀ s : OwnState, ownInv s → ownInv (ownRun s es) := by
  induction es with
  | nil => exact fun s h => h
  | cons e rest ih =>
    exact fun s h => ih (ownStep s e) (ownStep_preserves_inv s e h)

/-- Claim C6: for every sequence of drops after `Session::from_raw`, as long
as any session-side owner of the `SessionInner` is alive the instance's
native handle has not been destroyed — in particular dropping every external
Instance reference does not destroy it — and in the concrete run where the
one external Instance reference and then the three session-side owners are
dropped, the handle survives until the last session-side owner goes,
whereupon the session and then the instance are destroyed. -/
theorem session_keeps_instance_alive :
    (∀ (n : Nat) (es : List DropEvent),
      (ownRun (fromRawState n) es).innerAlive = true →
      (ownRun (fromRawState n) es).instanceDestroyed = false) ∧
    (ownRun (fromRawState 1)
      [DropEvent.dropInstance, DropEvent.dropSessionHandle,
        DropEvent.dropSessionHandle]).instanceDestroyed = false ∧
    ownRun (fromRawState 1)
      [DropEvent.dropInstance, DropEvent.dropSessionHandle,
        DropEvent.dropSessionHandle, DropEvent.dropSessionHandle] =
      ⟨0, 0, false, true, true⟩ := by
  refine ⟨?_, by decide, by decide⟩
  intro n es halive
  have hinv : ownInv (ownRun (fromRawState n) es) :=
    ownRun_preserves_inv es (fromRawState n) (by intro hd; cases hd)
  cases hdes : (ownRun (fromRawState n) es).instanceDestroyed
  · rfl
  · have hfalse := hinv hdes
    rw [hfalse] at halive
    exact Bool.noConfusion halive

/-- Claim C6, witness: after dropping the only external Instance reference,
the session-side owners are still alive and the instance handle is not
destroyed. -/
theorem session_keeps_instance_alive_witness :
    (ownRun (fromRawState 1) [DropEvent.dropInstance]).innerAlive = true ∧
    (ownRun (fromRawState 1) [DropEvent.dropInstance]).instanceDestroyed =
      false :=
  ⟨by decide,
    session_keeps_instance_alive.1 1 [DropEvent.dropInstance] (by decide)⟩

/-- Every buffer the array-helper fill loop passes to the native call holds
only copies of the initializer element. -/
theorem arrFillLoop_buffer_all_init {α : Type} (init : α)
    (resps : List (ArrResponse α)) :
    ∀ (cap : Nat) (c : ArrFillCall α), c ∈ (arrFillLoop init cap resps).1 →
      ∀ x ∈ c.buffer, x = init := by
  induction resps with
  | nil =>
    intro cap c hc
    simp [arrFillLoop] at hc
  | cons r rest ih =>
    intro cap c hc x hx
    simp only [arrFillLoop] at hc
    split at hc
    · simp at hc
      subst hc
      exact List.eq_of_mem_replicate hx
    · split at hc
      · rcases List.mem_cons.mp hc with hcc | hcc
        · subst hcc
          exact List.eq_of_mem_replicate hx
        · exact ih r.countOutput c hcc x hx
      · simp at hc
        subst hc
        exact List.eq_of_mem_replicate hx

/-- Every buffer `get_arr_init` passes to a fill call holds only copies of
the initializer element. -/
theorem get_arr_init_buffer_all_init {α : Type} (init : α)
    (probe : ArrResponse α) (fills : List (ArrResponse α)) :
    ∀ c ∈ (get_arr_init init probe fills).1, ∀ x ∈ c.buffer, x = init := by
  intro c hc
  simp only [get_arr_init] at hc
  split at hc
  · simp at hc
  · exact arrFillLoop_buffer_all_init init fills probe.countOutput c hc

/-- Claim C8: in `Entry::enumerate_extensions` and `Session::locate_views`,
every output element passed to a fill call was initialized beforehand to the
type-tagged unset shape — its structure-type discriminant set to the
element's runtime-defined type and its `next` pointer null. -/
theorem array_queries_pretag_elements (probe : ArrResponse TaggedElem)
    (fills : List (ArrResponse TaggedElem)) :
    (∀ c ∈ (Entry.enumerate_extensions probe fills).1, ∀ x ∈ c.buffer,
      x.ty = TYPE_EXTENSION_PROPERTIES ∧ x.nextIsNull = true) ∧
    (∀ c ∈ (Session.locate_views probe fills).1, ∀ x ∈ c.buffer,
      x.ty = TYPE_VIEW ∧ x.nextIsNull = true) := by
  constructor
  · intro c hc x hx
    have hxi := get_arr_init_buffer_all_init extensionPropertiesUnset probe
      fills c hc x hx
    rw [hxi]
    exact ⟨rfl, rfl⟩
  · intro c hc x hx
    have hxi := get_arr_init_buffer_all_init viewUnset probe fills c hc x hx
    rw [hxi]
    exact ⟨rfl, rfl⟩

/-- Claim C8, witness: a one-element enumeration issues a fill call whose
buffer holds the pre-tagged unset extension-properties element, whose type
tag and null `next` pointer the theorem certifies. -/
theorem array_queries_pretag_elements_witness :
    ((⟨1, [extensionPropertiesUnset]⟩ : ArrFillCall TaggedElem) ∈
      (Entry.enumerate_extensions ⟨0, 1, []⟩ [⟨0, 1, []⟩]).1) ∧
    extensionPropertiesUnset.ty = TYPE_EXTENSION_PROPERTIES ∧
    extensionPropertiesUnset.nextIsNull = true := by
  refine ⟨by decide, ?_⟩
  exact (array_queries_pretag_elements ⟨0, 1, []⟩ [⟨0, 1, []⟩]).1
    ⟨1, [extensionPropertiesUnset]⟩ (by decide) extensionPropertiesUnset
    (by decide)

end OpenXR
